import Mathlib

/-!
# paper-latest: verified model of the version-resolution and download pipeline

A shallow embedding of `src/main.rs` of the `paper-latest` tool: the data
model of the upstream API records, the destination parsing, the hex digest
decoding, the hash checks, version resolution (`determine_version`), build
selection, and the top-level pipeline of `main` as a function from an
abstract environment (the results the outside world would return for each
I/O step) to an outcome together with a trace of the effects performed.

Bytes are modelled as `Nat` values (each below 256 in every real run),
byte strings as `List Nat`.  Fallible steps of the environment are
`Except` values.  Rust `panic!`/`.expect`/`.unwrap` terminations are the
`Outcome.panic` constructor carrying the panic message.
-/

/-- Rust `Download` (main.rs): one artifact descriptor, with its file name
and its SHA-256 digest as a hex string. -/
structure Download where
  name : String
  sha256 : String
deriving DecidableEq, Repr

/-- Rust `ProjectData` (main.rs): project metadata from the API. -/
structure ProjectData where
  project_id : String
  version_groups : List String
  versions : List String
deriving DecidableEq, Repr

/-- Rust `VersionGroupData` (main.rs). -/
structure VersionGroupData where
  versions : List String
deriving DecidableEq, Repr

/-- Rust `VersionData` (main.rs): the build numbers of one version. -/
structure VersionData where
  builds : List Int
deriving DecidableEq, Repr

/-- Rust `BuildData` (main.rs): the downloads map of one build, modelled
as an association list (the `HashMap` key lookup becomes `find?`). -/
structure BuildData where
  downloads : List (String × Download)
deriving DecidableEq, Repr

/-- Rust `enum DownloadLocation` (main.rs): standard output or a file path
(`PathBuf` modelled as the path string). -/
inductive DownloadLocation where
  | stdout : DownloadLocation
  | file : String → DownloadLocation
deriving DecidableEq, Repr

/-- Rust `impl FromStr for DownloadLocation` (main.rs lines 58-67):
`"-"` is standard output, anything else is a file path; the error type is
`Infallible`, so the function is total. -/
def DownloadLocation.from_str (s : String) : DownloadLocation :=
  match s with
  | "-" => DownloadLocation.stdout
  | _ => DownloadLocation.file s

/-- Rust `struct PaperLatest` (main.rs): the parsed command line. -/
structure PaperLatest where
  project : String
  download_type : String
  version : String
  download_location : DownloadLocation
deriving DecidableEq, Repr

/-! ## Hex decoding (the `hex` crate's `hex::decode`) -/

/-- Modelled from the spec: the `hex` crate's per-character decoding used
by `hex::decode` (the crate itself is an external dependency).  A hex
digit in either case maps to its value; anything else is an error. -/
def hexDigitVal (c : Char) : Option Nat :=
  if '0' ≤ c ∧ c ≤ '9' then some (c.toNat - '0'.toNat)
  else if 'a' ≤ c ∧ c ≤ 'f' then some (c.toNat - 'a'.toNat + 10)
  else if 'A' ≤ c ∧ c ≤ 'F' then some (c.toNat - 'A'.toNat + 10)
  else none

/-- Modelled from the spec: `hex::decode` over the character list: pairs
of hex digits become bytes; an odd-length input or a non-hex character is
an error (`none`).  No length other than parity is checked. -/
def hexDecodeList : List Char → Option (List Nat)
  | [] => some []
  | [_] => none
  | c1 :: c2 :: rest => do
      let hi ← hexDigitVal c1
      let lo ← hexDigitVal c2
      let r ← hexDecodeList rest
      pure ((hi * 16 + lo) :: r)

/-- Modelled from the spec: `hex::decode` on a string. -/
def hexDecode (s : String) : Option (List Nat) :=
  hexDecodeList s.data

/-! ## SHA-256 (the `sha2` crate's `Sha256`)

Modelled from the spec: the pipeline's digest is SHA-256 (FIPS 180-4);
the `sha2` crate is an external dependency, so the algorithm is embedded
here directly.  Words are `Nat` values reduced modulo `2^32`. -/

/-- Truncate to a 32-bit word. -/
def w32 (n : Nat) : Nat := n % 4294967296

/-- Rotate a 32-bit word right by `n` bits. -/
def rotr (n x : Nat) : Nat := w32 ((x >>> n) ||| (x <<< (32 - n)))

/-- SHA-256 big sigma 0. -/
def bsig0 (x : Nat) : Nat := rotr 2 x ^^^ rotr 13 x ^^^ rotr 22 x

/-- SHA-256 big sigma 1. -/
def bsig1 (x : Nat) : Nat := rotr 6 x ^^^ rotr 11 x ^^^ rotr 25 x

/-- SHA-256 small sigma 0. -/
def ssig0 (x : Nat) : Nat := rotr 7 x ^^^ rotr 18 x ^^^ (x >>> 3)

/-- SHA-256 small sigma 1. -/
def ssig1 (x : Nat) : Nat := rotr 17 x ^^^ rotr 19 x ^^^ (x >>> 10)

/-- The 64 SHA-256 round constants. -/
def shaK : List Nat :=
  [1116352408, 1899447441, 3049323471, 3921009573, 961987163,
   1508970993, 2453635748, 2870763221, 3624381080, 310598401,
   607225278, 1426881987, 1925078388, 2162078206, 2614888103,
   3248222580, 3835390401, 4022224774, 264347078, 604807628,
   770255983, 1249150122, 1555081692, 1996064986, 2554220882,
   2821834349, 2952996808, 3210313671, 3336571891, 3584528711,
   113926993, 338241895, 666307205, 773529912, 1294757372,
   1396182291, 1695183700, 1986661051, 2177026350, 2456956037,
   2730485921, 2820302411, 3259730800, 3345764771, 3516065817,
   3600352804, 4094571909, 275423344, 430227734, 506948616,
   659060556, 883997877, 958139571, 1322822218, 1537002063,
   1747873779, 1955562222, 2024104815, 2227730452, 2361852424,
   2428436474, 2756734187, 3204031479, 3329325298]

/-- The SHA-256 initial hash state. -/
def shaH0 : List Nat :=
  [1779033703, 3144134277, 1013904242, 2773480762,
   1359893119, 2600822924, 528734635, 1541459225]

/-- A natural number as `k` big-endian bytes. -/
def beBytes : Nat → Nat → List Nat
  | 0, _ => []
  | k + 1, n => beBytes k (n / 256) ++ [n % 256]

/-- The SHA-256 padding appended to a message of `len` bytes: the `0x80`
marker, zeros up to 56 mod 64, and the bit length as 8 big-endian bytes. -/
def shaPadding (len : Nat) : List Nat :=
  0x80 :: List.replicate ((64 - (len + 9) % 64) % 64) 0 ++ beBytes 8 (len * 8)

/-- Group a 64-byte block into 16 big-endian 32-bit words. -/
def toWords : List Nat → List Nat
  | b0 :: b1 :: b2 :: b3 :: rest =>
      (b0 * 16777216 + b1 * 65536 + b2 * 256 + b3) :: toWords rest
  | _ => []

/-- Extend the 16-word message schedule by `k` further words. -/
def extendW : Nat → List Nat → List Nat
  | 0, w => w
  | k + 1, w =>
      let t := w.length
      let wt := w32 (ssig1 (w.getD (t - 2) 0) + w.getD (t - 7) 0 +
        ssig0 (w.getD (t - 15) 0) + w.getD (t - 16) 0)
      extendW k (w ++ [wt])

/-- One SHA-256 compression round: the state is the eight working words,
`kw` the round constant paired with the schedule word. -/
def compressRound (st : List Nat) (kw : Nat × Nat) : List Nat :=
  match st with
  | [a, b, c, d, e, f, g, h] =>
      let ch := (e &&& f) ^^^ ((e ^^^ 0xffffffff) &&& g)
      let t1 := w32 (h + bsig1 e + ch + kw.1 + kw.2)
      let maj := (a &&& b) ^^^ (a &&& c) ^^^ (b &&& c)
      let t2 := w32 (bsig0 a + maj)
      [w32 (t1 + t2), a, b, c, w32 (d + t1), e, f, g]
  | st => st

/-- Process one 64-byte block into the running hash state. -/
def processBlock (h : List Nat) (block : List Nat) : List Nat :=
  let w := extendW 48 (toWords block)
  let st := (shaK.zip w).foldl compressRound h
  List.zipWith (fun x y => w32 (x + y)) h st

/-- Split into 64-byte chunks; the fuel (an upper bound on the number of
chunks) keeps the recursion structural. -/
def chunks64 : Nat → List Nat → List (List Nat)
  | 0, _ => []
  | _, [] => []
  | fuel + 1, l => l.take 64 :: chunks64 fuel (l.drop 64)

/-- SHA-256 of a byte string: pad, process each block, emit the eight
state words as 32 big-endian bytes. -/
def sha256 (msg : List Nat) : List Nat :=
  let padded := msg ++ shaPadding msg.length
  let hs := (chunks64 padded.length padded).foldl processBlock shaH0
  List.flatten (hs.map (beBytes 4))

/-! ## Hash checks (main.rs `check_file_hash`, `check_mem_hash`) -/

/-- Rust `check_file_hash` (main.rs lines 191-213): open and read the
destination file (the read outcome is supplied by the environment),
compute the SHA-256 of its contents, and compare the raw digest bytes.
A read failure is returned as the error; a successful read returns
whether the digests are equal. -/
def check_file_hash (download_hash : List Nat)
    (fileRead : Except String (List Nat)) : Except String Bool :=
  match fileRead with
  | Except.error e => Except.error e
  | Except.ok bytes => Except.ok (decide (download_hash = sha256 bytes))

/-- Rust `check_mem_hash` (main.rs lines 215-238): compute the SHA-256 of
the downloaded bytes and compare the raw digest bytes for equality; the
source panics on a mismatch, which `run_main` models by turning a `false`
result into `Outcome.panic`. -/
def check_mem_hash (download_hash : List Nat) (bytes : List Nat) : Bool :=
  decide (download_hash = sha256 bytes)

/-! ## Version resolution (main.rs `determine_version`) -/

/-- The outcome of `determine_version`: a resolved version, the
"not a known version or (part of a) version group" error naming the
token, or the panic raised by `.expect` when the version-group fetch
fails. -/
inductive ResolveResult where
  | resolved : String → ResolveResult
  | unknown : String → ResolveResult
  | fetchPanic : ResolveResult
deriving DecidableEq, Repr

/-- Rust `determine_version` (main.rs lines 240-262).  `groupFetch` is
the result the API would return for the group metadata fetch; it is only
consulted when the token is in `version_groups`.  If the token is a
group name, the fetch result is unwrapped with `.expect` (a failure
panics), and a non-empty group resolves to the last element; an empty
group falls through to the literal-versions check, as does a token that
is not a group name at all. -/
def determine_version (groupFetch : Except Unit VersionGroupData)
    (project_data : ProjectData) (version : String) : ResolveResult :=
  if project_data.version_groups.contains version then
    match groupFetch with
    | Except.error _ => ResolveResult.fetchPanic
    | Except.ok group_data =>
      match group_data.versions.getLast? with
      | some g => ResolveResult.resolved g
      | none =>
        if project_data.versions.contains version then
          ResolveResult.resolved version
        else ResolveResult.unknown version
  else
    if project_data.versions.contains version then
      ResolveResult.resolved version
    else ResolveResult.unknown version

/-! ## Build selection (main.rs lines 103-107) -/

/-- Rust `Iterator::max` over the builds: a left fold keeping the larger
value (the later element on ties, as `max` does). -/
def iter_max (l : List Int) : Option Int :=
  l.foldl (fun acc x =>
    match acc with
    | none => some x
    | some m => some (if m ≤ x then x else m)) none

/-- The build-selection step of `main` (lines 103-107):
`builds.into_iter().max().expect("Version has no builds")`; the panic on
an empty list is modelled as the error value. -/
def select_build (builds : List Int) : Except String Int :=
  match iter_max builds with
  | some b => Except.ok b
  | none => Except.error "Version has no builds"

/-- Rust `build_data.downloads.get(&args.download_type)` (main.rs lines
115-118), on the association-list model of the `HashMap`. -/
def lookup_download (downloads : List (String × Download))
    (key : String) : Option Download :=
  (downloads.find? (fun p => p.1 == key)).map Prod.snd

/-! ## The pipeline (main.rs `main`) -/

/-- The observable effects of one run, in order: the four JSON fetches,
the skip-check file read (and the log line when it fails), the artifact
body download, the opening of the output writer (which creates or
truncates a destination file), and the write of the bytes. -/
inductive Event where
  | fetchProject : Event
  | fetchGroup : Event
  | fetchVersion : Event
  | fetchBuild : Event
  | readFile : Event
  | logSkipReadError : Event
  | download : Event
  | openWriter : Event
  | writeOut : Event
deriving DecidableEq, Repr

/-- How a run ends: normal completion after writing, the early successful
return when the file is already current, the `exit(1)` of the terminal
guard, or a panic (every `.expect`/`.unwrap`/`panic!` of the source). -/
inductive Outcome where
  | success : Outcome
  | skipped : Outcome
  | refusedTerminal : Outcome
  | panic : String → Outcome
deriving DecidableEq, Repr

/-- The environment of one run: what the terminal, the API, the
filesystem and the network would answer for each effectful step. -/
structure Env where
  user_attended : Bool
  projectFetch : Except Unit ProjectData
  groupFetch : Except Unit VersionGroupData
  versionFetch : Except Unit VersionData
  buildFetch : Except Unit BuildData
  fileExists : Bool
  fileRead : Except String (List Nat)
  downloadResult : Except Unit (List Nat)
  writerOpen : Except Unit Unit
  writeResult : Except Unit Unit

/-- Rust `matches!(args.download_location, DownloadLocation::Stdout)`
(main.rs line 85). -/
def is_stdout : DownloadLocation → Bool
  | DownloadLocation.stdout => true
  | DownloadLocation.file _ => false

/-- The group-metadata fetch attempt performed inside `determine_version`
(main.rs lines 244-249): it happens exactly when the requested token is
in `version_groups`, whether or not it succeeds. -/
def group_fetch_events (pd : ProjectData) (version : String) : List Event :=
  if pd.version_groups.contains version then [Event.fetchGroup] else []

/-- The skip-check of `main` (lines 124-134): only a file destination is
checked; if the file exists its hash is checked, and a check failure is
logged and treated as "not a match" (`unwrap_or_else` returning false).
Returns whether to skip, with the events performed. -/
def run_skip_check (env : Env) (loc : DownloadLocation)
    (download_hash : List Nat) : Bool × List Event :=
  match loc with
  | DownloadLocation.stdout => (false, [])
  | DownloadLocation.file _ =>
    if env.fileExists then
      match check_file_hash download_hash env.fileRead with
      | Except.ok b => (b, [Event.readFile])
      | Except.error _ => (false, [Event.readFile, Event.logSkipReadError])
    else (false, [])

/-- The tail of `main` (lines 136-160): download the artifact body,
verify it with `check_mem_hash` (panicking on mismatch), and only then
open the output writer and copy the bytes to it.  `es` is the event
trace accumulated so far. -/
def download_and_save (env : Env) (download_hash : List Nat)
    (es : List Event) : Outcome × List Event :=
  let es1 := es ++ [Event.download]
  match env.downloadResult with
  | Except.error _ => (Outcome.panic "Failed to download from stream", es1)
  | Except.ok bytes =>
    if check_mem_hash download_hash bytes then
      let es2 := es1 ++ [Event.openWriter]
      match env.writerOpen with
      | Except.error _ =>
          (Outcome.panic "Failed to open writer to download location", es2)
      | Except.ok _ =>
        let es3 := es2 ++ [Event.writeOut]
        match env.writeResult with
        | Except.error _ => (Outcome.panic "Failed to save bytes", es3)
        | Except.ok _ => (Outcome.success, es3)
    else (Outcome.panic "Failed digest check", es1)

/-- Rust `main` (main.rs lines 80-160): the terminal guard, then the
dependent fetches, version resolution, build selection, download-type
lookup, hex decoding of the expected digest, the skip-check, and finally
`download_and_save`.  Every `.expect` becomes an `Outcome.panic` with
its message. -/
def run_main (env : Env) (args : PaperLatest) : Outcome × List Event :=
  if is_stdout args.download_location && env.user_attended then
    (Outcome.refusedTerminal, [])
  else
    let es0 := [Event.fetchProject]
    match env.projectFetch with
    | Except.error _ => (Outcome.panic "Failed to get project data", es0)
    | Except.ok project_data =>
      let es1 := es0 ++ group_fetch_events project_data args.version
      match determine_version env.groupFetch project_data args.version with
      | ResolveResult.fetchPanic =>
          (Outcome.panic "Failed to get version group data", es1)
      | ResolveResult.unknown _ =>
          (Outcome.panic "Failed to determine version to download", es1)
      | ResolveResult.resolved _version =>
        let es2 := es1 ++ [Event.fetchVersion]
        match env.versionFetch with
        | Except.error _ => (Outcome.panic "Failed to get version data", es2)
        | Except.ok version_data =>
          match select_build version_data.builds with
          | Except.error e => (Outcome.panic e, es2)
          | Except.ok _build =>
            let es3 := es2 ++ [Event.fetchBuild]
            match env.buildFetch with
            | Except.error _ =>
                (Outcome.panic "Failed to get build data", es3)
            | Except.ok build_data =>
              match lookup_download build_data.downloads args.download_type with
              | none =>
                  (Outcome.panic "No download of the given type available", es3)
              | some download =>
                match hexDecode download.sha256 with
                | none =>
                    (Outcome.panic "Got a sha256 value that was not hex", es3)
                | some download_hash =>
                  let sk := run_skip_check env args.download_location download_hash
                  let es4 := es3 ++ sk.2
                  if sk.1 then (Outcome.skipped, es4)
                  else download_and_save env download_hash es4

/-! ## Concrete runs used to witness the theorems -/

/-- A concrete run: project "paper" with literal version "1.20", builds
10/12/11, one "application" download whose declared digest is 32 zero
bytes (which no byte string hashes to in these runs), destination file
absent, download returning the empty byte string. -/
def wenv : Env :=
  Env.mk false (Except.ok (ProjectData.mk "paper" [] ["1.20"]))
    (Except.error ()) (Except.ok (VersionData.mk [10, 12, 11]))
    (Except.ok (BuildData.mk [("application",
      Download.mk "paper-1.20-12.jar"
        "0000000000000000000000000000000000000000000000000000000000000000")]))
    false (Except.error "unused") (Except.ok []) (Except.ok ()) (Except.ok ())

/-- The command line of the concrete runs: defaults plus version "1.20"
and a file destination. -/
def wargs : PaperLatest :=
  PaperLatest.mk "paper" "application" "1.20" (DownloadLocation.file "out.jar")

/-- Like `wenv`, but the declared digest is the digest of the empty byte
string and the destination file exists and already holds it. -/
def wenv5 : Env :=
  Env.mk false (Except.ok (ProjectData.mk "paper" [] ["1.20"]))
    (Except.error ()) (Except.ok (VersionData.mk [10, 12, 11]))
    (Except.ok (BuildData.mk [("application",
      Download.mk "paper-1.20-12.jar"
        "e3b0c44298fc1c149afbf4c8996fb92427ae41e4649b934ca495991b7852b855")]))
    true (Except.ok []) (Except.ok []) (Except.ok ()) (Except.ok ())

/-- Like `wenv5`, but reading the existing destination file fails. -/
def wenv6 : Env :=
  Env.mk false (Except.ok (ProjectData.mk "paper" [] ["1.20"]))
    (Except.error ()) (Except.ok (VersionData.mk [10, 12, 11]))
    (Except.ok (BuildData.mk [("application",
      Download.mk "paper-1.20-12.jar"
        "e3b0c44298fc1c149afbf4c8996fb92427ae41e4649b934ca495991b7852b855")]))
    true (Except.error "permission denied") (Except.ok [])
    (Except.ok ()) (Except.ok ())

/-- Like `wenv`, but the declared digest string is not hexadecimal. -/
def wenv8 : Env :=
  Env.mk false (Except.ok (ProjectData.mk "paper" [] ["1.20"]))
    (Except.error ()) (Except.ok (VersionData.mk [10, 12, 11]))
    (Except.ok (BuildData.mk [("application",
      Download.mk "paper-1.20-12.jar" "zz")]))
    false (Except.error "unused") (Except.ok []) (Except.ok ()) (Except.ok ())

/-! ## Helper lemmas -/

/-- The group-fetch attempt contributes only the group-fetch event. -/
theorem mem_group_fetch_events {e : Event} {pd : ProjectData} {v : String}
    (h : e ∈ group_fetch_events pd v) : e = Event.fetchGroup := by
  unfold group_fetch_events at h
  split at h <;> simp_all

/-- The skip-check contributes only the file-read and the log event. -/
theorem mem_run_skip_check {e : Event} {env : Env} {loc : DownloadLocation}
    {dh : List Nat} (h : e ∈ (run_skip_check env loc dh).2) :
    e = Event.readFile ∨ e = Event.logSkipReadError := by
  rcases loc with _ | p
  · simp [run_skip_check] at h
  · simp only [run_skip_check] at h
    split at h
    · split at h <;> simp_all
    · simp at h

/-- Unfolding `run_main` through a successful front half of the pipeline
(guard passed, all fetches up to the digest decode succeeded): the run is
decided by the skip-check and, failing that, by `download_and_save`. -/
theorem run_main_unfold (env : Env) (args : PaperLatest)
    (pd : ProjectData) (ver : String) (vd : VersionData) (b : Int)
    (bd : BuildData) (download : Download) (dh : List Nat)
    (hguard : (is_stdout args.download_location && env.user_attended) = false)
    (hproj : env.projectFetch = Except.ok pd)
    (hresolve : determine_version env.groupFetch pd args.version =
      ResolveResult.resolved ver)
    (hver : env.versionFetch = Except.ok vd)
    (hbuild : select_build vd.builds = Except.ok b)
    (hbd : env.buildFetch = Except.ok bd)
    (hdl : lookup_download bd.downloads args.download_type = some download)
    (hhex : hexDecode download.sha256 = some dh) :
    run_main env args =
      (if (run_skip_check env args.download_location dh).1 then
        (Outcome.skipped,
          Event.fetchProject :: group_fetch_events pd args.version ++
            [Event.fetchVersion, Event.fetchBuild] ++
            (run_skip_check env args.download_location dh).2)
      else
        download_and_save env dh
          (Event.fetchProject :: group_fetch_events pd args.version ++
            [Event.fetchVersion, Event.fetchBuild] ++
            (run_skip_check env args.download_location dh).2)) := by
  simp only [run_main, hguard, hproj, hresolve, hver, hbuild, hbd, hdl, hhex,
    Bool.false_eq_true, if_false, List.cons_append, List.nil_append,
    List.append_assoc]

/-- Every event of the front half of a trace is one of the six events the
front half can perform. -/
theorem trace_events_cases {e : Event} {pd : ProjectData} {v : String}
    {env : Env} {loc : DownloadLocation} {dh : List Nat} {post : List Event}
    (h : e ∈ (Event.fetchProject :: group_fetch_events pd v ++
      [Event.fetchVersion, Event.fetchBuild] ++
      (run_skip_check env loc dh).2) ++ post) :
    e = Event.fetchProject ∨ e = Event.fetchGroup ∨ e = Event.fetchVersion ∨
    e = Event.fetchBuild ∨ e = Event.readFile ∨ e = Event.logSkipReadError ∨
    e ∈ post := by
  simp only [List.mem_cons, List.mem_append, List.mem_singleton,
    List.not_mem_nil, or_false, false_or] at h
  rcases h with (((h | h) | h | h) | h) | h
  · exact Or.inl h
  · exact Or.inr (Or.inl (mem_group_fetch_events h))
  · exact Or.inr (Or.inr (Or.inl h))
  · exact Or.inr (Or.inr (Or.inr (Or.inl h)))
  · rcases mem_run_skip_check h with h | h
    · exact Or.inr (Or.inr (Or.inr (Or.inr (Or.inl h))))
    · exact Or.inr (Or.inr (Or.inr (Or.inr (Or.inr (Or.inl h)))))
  · exact Or.inr (Or.inr (Or.inr (Or.inr (Or.inr (Or.inr h)))))

/-- The outcome of the download/verify/save tail does not depend on the
events accumulated so far. -/
theorem download_and_save_fst (env : Env) (dh : List Nat) (es es' : List Event) :
    (download_and_save env dh es).1 = (download_and_save env dh es').1 := by
  rcases hd : env.downloadResult with u | bytes <;>
    rcases hw : env.writerOpen with u2 | w <;>
      rcases hr : env.writeResult with u3 | r <;>
        simp [download_and_save, hd, hw, hr] <;> split <;> simp

/-- The download/verify/save tail reads none of the skip-check fields. -/
theorem download_and_save_irrel (env : Env) (dh : List Nat) (es : List Event) :
    download_and_save { env with fileExists := false } dh es =
      download_and_save env dh es := rfl

/-- The download/verify/save tail preserves the accumulated events. -/
theorem mem_download_and_save {e : Event} (env : Env) (dh : List Nat)
    {es : List Event} (h : e ∈ es) : e ∈ (download_and_save env dh es).2 := by
  rcases hd : env.downloadResult with u | bytes <;>
    rcases hw : env.writerOpen with u2 | w <;>
      rcases hr : env.writeResult with u3 | r <;>
        simp [download_and_save, hd, hw, hr, h] <;> split <;> simp [h]

/-- The download/verify/save tail always performs the download attempt. -/
theorem download_mem_download_and_save (env : Env) (dh : List Nat)
    (es : List Event) : Event.download ∈ (download_and_save env dh es).2 := by
  rcases hd : env.downloadResult with u | bytes <;>
    rcases hw : env.writerOpen with u2 | w <;>
      rcases hr : env.writeResult with u3 | r <;>
        simp [download_and_save, hd, hw, hr] <;> split <;> simp

/-- A left fold keeping the larger element yields a maximum: the result
is the start value or a list element, bounds the start value, and bounds
every list element. -/
theorem iter_max_go (l : List Int) : ∀ m : Int,
    ∃ b, l.foldl (fun acc x =>
      match acc with
      | none => some x
      | some mm => some (if mm ≤ x then x else mm)) (some m) = some b ∧
      (b = m ∨ b ∈ l) ∧ m ≤ b ∧ ∀ x ∈ l, x ≤ b := by
  induction l with
  | nil => exact fun m => ⟨m, rfl, Or.inl rfl, le_refl m, by simp⟩
  | cons x xs ih =>
    intro m
    obtain ⟨b, hb, hmem, hle, hall⟩ := ih (if m ≤ x then x else m)
    refine ⟨b, ?_, ?_, ?_, ?_⟩
    · simpa using hb
    · rcases hmem with h | h
      · subst h
        split
        · exact Or.inr (List.mem_cons_self x xs)
        · exact Or.inl rfl
      · exact Or.inr (List.mem_cons_of_mem x h)
    · exact le_trans (by split <;> simp_all) hle
    · intro y hy
      rcases List.mem_cons.mp hy with h | h
      · subst h
        exact le_trans (by split <;> simp_all [le_of_not_le]) hle
      · exact hall y h

/-! ## The claims -/

/-- C1: for every run in which the SHA-256 digest of the downloaded bytes
does not equal the expected digest decoded from the artifact descriptor,
the run aborts with the fatal digest-check panic and the destination is
left untouched: the output writer is never opened (so no file is created
or truncated) and no write is performed, because the writer is only
opened after verification succeeds. -/
theorem integrity_gate_aborts_before_write (env : Env) (args : PaperLatest)
    (pd : ProjectData) (ver : String) (vd : VersionData) (b : Int)
    (bd : BuildData) (download : Download) (dh bytes : List Nat)
    (hguard : (is_stdout args.download_location && env.user_attended) = false)
    (hproj : env.projectFetch = Except.ok pd)
    (hresolve : determine_version env.groupFetch pd args.version =
      ResolveResult.resolved ver)
    (hver : env.versionFetch = Except.ok vd)
    (hbuild : select_build vd.builds = Except.ok b)
    (hbd : env.buildFetch = Except.ok bd)
    (hdl : lookup_download bd.downloads args.download_type = some download)
    (hhex : hexDecode download.sha256 = some dh)
    (hskip : (run_skip_check env args.download_location dh).1 = false)
    (hdlres : env.downloadResult = Except.ok bytes)
    (hbad : sha256 bytes ≠ dh) :
    (run_main env args).1 = Outcome.panic "Failed digest check" ∧
    Event.openWriter ∉ (run_main env args).2 ∧
    Event.writeOut ∉ (run_main env args).2 := by
  have hc : check_mem_hash dh bytes = false := by
    unfold check_mem_hash
    exact decide_eq_false fun h => hbad h.symm
  have hrun : run_main env args = (Outcome.panic "Failed digest check",
      (Event.fetchProject :: group_fetch_events pd args.version ++
        [Event.fetchVersion, Event.fetchBuild] ++
        (run_skip_check env args.download_location dh).2) ++ [Event.download]) := by
    rw [run_main_unfold env args pd ver vd b bd download dh hguard hproj
      hresolve hver hbuild hbd hdl hhex, hskip]
    simp [download_and_save, hdlres, hc]
  rw [hrun]
  refine ⟨rfl, fun hmem => ?_, fun hmem => ?_⟩ <;>
    rcases trace_events_cases hmem with h | h | h | h | h | h | h <;> simp_all

/-- C1 witness: the concrete run `wenv`/`wargs` declares an all-zero
digest while the download produces the empty byte string, so the run
panics at the digest check without ever opening the output writer. -/
theorem integrity_gate_aborts_before_write_witness :
    (run_main wenv wargs).1 = Outcome.panic "Failed digest check" ∧
    Event.openWriter ∉ (run_main wenv wargs).2 ∧
    Event.writeOut ∉ (run_main wenv wargs).2 :=
  integrity_gate_aborts_before_write wenv wargs
    (ProjectData.mk "paper" [] ["1.20"]) "1.20" (VersionData.mk [10, 12, 11])
    12
    (BuildData.mk [("application", Download.mk "paper-1.20-12.jar"
      "0000000000000000000000000000000000000000000000000000000000000000")])
    (Download.mk "paper-1.20-12.jar"
      "0000000000000000000000000000000000000000000000000000000000000000")
    (List.replicate 32 0) []
    rfl rfl (by decide) rfl rfl rfl (by decide) (by decide) rfl rfl
    (by decide)

/-- C2 counterexample: with a project whose token "1.20" is both a
version-group name and a literal version, a failing group fetch makes
`determine_version` panic (the `.expect` on the fetch result) instead of
falling through to the literal-versions check and returning "1.20". -/
theorem determine_version_fetch_failure_cex :
    determine_version (Except.error ())
      (ProjectData.mk "paper" ["1.20"] ["1.20"]) "1.20" =
      ResolveResult.fetchPanic ∧
    ResolveResult.fetchPanic ≠ ResolveResult.resolved "1.20" := by
  decide

/-- C2 (amended): when the requested token is a version-group name and
the fetched group's version sequence is empty, resolution falls through
to the literal-versions check (token verbatim if present, else the
unknown-version error); but when the group fetch itself fails, the run
panics immediately rather than falling through. -/
theorem determine_version_fallthrough (pd : ProjectData) (v : String)
    (gd : VersionGroupData) (hg : v ∈ pd.version_groups) :
    (gd.versions = [] →
      determine_version (Except.ok gd) pd v =
        (if v ∈ pd.versions then ResolveResult.resolved v
         else ResolveResult.unknown v)) ∧
    determine_version (Except.error ()) pd v = ResolveResult.fetchPanic := by
  refine ⟨fun he => ?_, ?_⟩
  · simp [determine_version, hg, he]
  · simp [determine_version, hg]

/-- C2 witness: for the token "1.20" naming both a group and a literal
version, an empty group falls through and resolves to the literal, while
a failed group fetch panics. -/
theorem determine_version_fallthrough_witness :
    "1.20" ∈ (ProjectData.mk "paper" ["1.20"] ["1.20"]).version_groups ∧
    ((VersionGroupData.mk []).versions = [] →
      determine_version (Except.ok (VersionGroupData.mk []))
        (ProjectData.mk "paper" ["1.20"] ["1.20"]) "1.20" =
        (if "1.20" ∈ (ProjectData.mk "paper" ["1.20"] ["1.20"]).versions then
          ResolveResult.resolved "1.20" else ResolveResult.unknown "1.20")) ∧
    determine_version (Except.error ())
      (ProjectData.mk "paper" ["1.20"] ["1.20"]) "1.20" =
      ResolveResult.fetchPanic :=
  ⟨by decide,
    (determine_version_fallthrough (ProjectData.mk "paper" ["1.20"] ["1.20"])
      "1.20" (VersionGroupData.mk []) (by decide)).1,
    (determine_version_fallthrough (ProjectData.mk "paper" ["1.20"] ["1.20"])
      "1.20" (VersionGroupData.mk []) (by decide)).2⟩

/-- C3: `determine_version` returns the token itself when it is a literal
version and not a group name; when it is a group name (even if also a
literal version) and the fetched group's sequence is non-empty, it
returns exactly the last element of that sequence; and when it is
neither, it fails with the unknown-version error naming the token. -/
theorem resolve_correctness :
    (∀ (gf : Except Unit VersionGroupData) (pd : ProjectData) (v : String),
      v ∈ pd.versions → v ∉ pd.version_groups →
      determine_version gf pd v = ResolveResult.resolved v) ∧
    (∀ (pd : ProjectData) (v : String) (gd : VersionGroupData) (l : String),
      v ∈ pd.version_groups → gd.versions.getLast? = some l →
      determine_version (Except.ok gd) pd v = ResolveResult.resolved l) ∧
    (∀ (gf : Except Unit VersionGroupData) (pd : ProjectData) (v : String),
      v ∉ pd.versions → v ∉ pd.version_groups →
      determine_version gf pd v = ResolveResult.unknown v) := by
  refine ⟨fun gf pd v h1 h2 => ?_, fun pd v gd l h1 h2 => ?_,
    fun gf pd v h1 h2 => ?_⟩
  · simp [determine_version, h1, h2]
  · simp [determine_version, h1, h2]
  · simp [determine_version, h1, h2]

/-- C3 witness: the token "1.20" names both a group and a literal
version; it resolves as a group, to the last element of the group's
sequence. -/
theorem resolve_correctness_witness :
    "1.20" ∈ (ProjectData.mk "paper" ["1.20"] ["1.20"]).version_groups ∧
    (VersionGroupData.mk ["1.20.1", "1.20.2"]).versions.getLast? =
      some "1.20.2" ∧
    determine_version (Except.ok (VersionGroupData.mk ["1.20.1", "1.20.2"]))
      (ProjectData.mk "paper" ["1.20"] ["1.20"]) "1.20" =
      ResolveResult.resolved "1.20.2" :=
  ⟨by decide, by decide,
    resolve_correctness.2.1 (ProjectData.mk "paper" ["1.20"] ["1.20"]) "1.20"
      (VersionGroupData.mk ["1.20.1", "1.20.2"]) "1.20.2"
      (by decide) (by decide)⟩

/-- C4: for every non-empty build list the pipeline's build-selection
step returns a maximum of the list (a member bounding every member); for
the empty list it returns the "Version has no builds" error rather than
any out-of-range access. -/
theorem highest_build_selection :
    (∀ builds : List Int, builds ≠ [] →
      ∃ b, select_build builds = Except.ok b ∧ b ∈ builds ∧
        ∀ x ∈ builds, x ≤ b) ∧
    select_build [] = Except.error "Version has no builds" := by
  refine ⟨fun builds hne => ?_, rfl⟩
  match builds, hne with
  | x :: xs, _ =>
    obtain ⟨b, hb, hmem, hxle, hall⟩ := iter_max_go xs x
    refine ⟨b, ?_, ?_, ?_⟩
    · simp only [select_build, iter_max, List.foldl, hb]
    · rcases hmem with h | h
      · exact h ▸ List.mem_cons_self x xs
      · exact List.mem_cons_of_mem x h
    · intro y hy
      rcases List.mem_cons.mp hy with h | h
      · exact h ▸ hxle
      · exact hall y h

/-- C4 witness: over the builds 10, 12, 11 the selection step returns a
build that is a member and an upper bound (namely 12). -/
theorem highest_build_selection_witness :
    ([10, 12, 11] : List Int) ≠ [] ∧
    ∃ b, select_build [10, 12, 11] = Except.ok b ∧ b ∈ [10, 12, 11] ∧
      ∀ x ∈ ([10, 12, 11] : List Int), x ≤ b :=
  ⟨by decide, highest_build_selection.1 [10, 12, 11] (by decide)⟩

/-- C5: when the destination is an existing file whose contents hash to
the expected digest, the run ends in the early successful return without
downloading the artifact body, without opening the output writer and
without writing — a re-run against an already-current file is a no-op. -/
theorem idempotent_rerun_skips (env : Env) (args : PaperLatest) (path : String)
    (pd : ProjectData) (ver : String) (vd : VersionData) (b : Int)
    (bd : BuildData) (download : Download) (dh fileBytes : List Nat)
    (hloc : args.download_location = DownloadLocation.file path)
    (hproj : env.projectFetch = Except.ok pd)
    (hresolve : determine_version env.groupFetch pd args.version =
      ResolveResult.resolved ver)
    (hver : env.versionFetch = Except.ok vd)
    (hbuild : select_build vd.builds = Except.ok b)
    (hbd : env.buildFetch = Except.ok bd)
    (hdl : lookup_download bd.downloads args.download_type = some download)
    (hhex : hexDecode download.sha256 = some dh)
    (hfe : env.fileExists = true)
    (hread : env.fileRead = Except.ok fileBytes)
    (hmatch : dh = sha256 fileBytes) :
    (run_main env args).1 = Outcome.skipped ∧
    Event.download ∉ (run_main env args).2 ∧
    Event.openWriter ∉ (run_main env args).2 ∧
    Event.writeOut ∉ (run_main env args).2 := by
  have hguard : (is_stdout args.download_location && env.user_attended) = false := by
    rw [hloc]; rfl
  have hsk : run_skip_check env args.download_location dh =
      (true, [Event.readFile]) := by
    rw [hloc]
    simp [run_skip_check, hfe, check_file_hash, hread, hmatch]
  have hrun : run_main env args = (Outcome.skipped,
      Event.fetchProject :: group_fetch_events pd args.version ++
        [Event.fetchVersion, Event.fetchBuild] ++
        (run_skip_check env args.download_location dh).2) := by
    rw [run_main_unfold env args pd ver vd b bd download dh hguard hproj
      hresolve hver hbuild hbd hdl hhex]
    rw [hsk]
    rfl
  rw [hrun]
  refine ⟨rfl, fun hmem => ?_, fun hmem => ?_, fun hmem => ?_⟩ <;>
    rcases trace_events_cases (List.mem_append_left [] hmem)
      with h | h | h | h | h | h | h <;> simp_all

/-- C5 witness: in the concrete run `wenv5` the destination file exists
and holds the empty byte string, whose digest the descriptor declares; the
run skips the download and writes nothing. -/
theorem idempotent_rerun_skips_witness :
    (run_main wenv5 wargs).1 = Outcome.skipped ∧
    Event.download ∉ (run_main wenv5 wargs).2 ∧
    Event.openWriter ∉ (run_main wenv5 wargs).2 ∧
    Event.writeOut ∉ (run_main wenv5 wargs).2 :=
  idempotent_rerun_skips wenv5 wargs "out.jar"
    (ProjectData.mk "paper" [] ["1.20"]) "1.20" (VersionData.mk [10, 12, 11])
    12
    (BuildData.mk [("application", Download.mk "paper-1.20-12.jar"
      "e3b0c44298fc1c149afbf4c8996fb92427ae41e4649b934ca495991b7852b855")])
    (Download.mk "paper-1.20-12.jar"
      "e3b0c44298fc1c149afbf4c8996fb92427ae41e4649b934ca495991b7852b855")
    (sha256 []) []
    rfl rfl (by decide) rfl rfl rfl (by decide) (by decide) rfl rfl rfl

/-- C6: a failure while reading the existing destination file during the
skip-check is recoverable: the run logs the failure, proceeds to the
download attempt, and ends with the same outcome as a run in which the
destination file did not exist at all. -/
theorem skip_read_failure_recovers (env : Env) (args : PaperLatest)
    (path : String) (pd : ProjectData) (ver : String) (vd : VersionData)
    (b : Int) (bd : BuildData) (download : Download) (dh : List Nat)
    (msg : String)
    (hloc : args.download_location = DownloadLocation.file path)
    (hproj : env.projectFetch = Except.ok pd)
    (hresolve : determine_version env.groupFetch pd args.version =
      ResolveResult.resolved ver)
    (hver : env.versionFetch = Except.ok vd)
    (hbuild : select_build vd.builds = Except.ok b)
    (hbd : env.buildFetch = Except.ok bd)
    (hdl : lookup_download bd.downloads args.download_type = some download)
    (hhex : hexDecode download.sha256 = some dh)
    (hfe : env.fileExists = true)
    (hread : env.fileRead = Except.error msg) :
    (run_main env args).1 = (run_main { env with fileExists := false } args).1 ∧
    Event.logSkipReadError ∈ (run_main env args).2 ∧
    Event.download ∈ (run_main env args).2 := by
  have hguard : (is_stdout args.download_location && env.user_attended) = false := by
    rw [hloc]; rfl
  have hsk : run_skip_check env args.download_location dh =
      (false, [Event.readFile, Event.logSkipReadError]) := by
    rw [hloc]
    simp [run_skip_check, hfe, check_file_hash, hread]
  have hrun : run_main env args = download_and_save env dh
      (Event.fetchProject :: group_fetch_events pd args.version ++
        [Event.fetchVersion, Event.fetchBuild] ++
        [Event.readFile, Event.logSkipReadError]) := by
    rw [run_main_unfold env args pd ver vd b bd download dh hguard hproj
      hresolve hver hbuild hbd hdl hhex]
    rw [hsk]
    rfl
  have hsk2 : run_skip_check { env with fileExists := false }
      args.download_location dh = (false, []) := by
    rw [hloc]
    simp [run_skip_check]
  have hrun2 : run_main { env with fileExists := false } args =
      download_and_save { env with fileExists := false } dh
        (Event.fetchProject :: group_fetch_events pd args.version ++
          [Event.fetchVersion, Event.fetchBuild] ++ []) := by
    rw [run_main_unfold { env with fileExists := false } args pd ver vd b bd
      download dh hguard hproj hresolve hver hbuild hbd hdl hhex]
    rw [hsk2]
    rfl
  refine ⟨?_, ?_, ?_⟩
  · rw [hrun, hrun2, download_and_save_irrel]
    exact download_and_save_fst env dh _ _
  · rw [hrun]
    exact mem_download_and_save env dh (by simp)
  · rw [hrun]
    exact download_mem_download_and_save env dh _

/-- C6 witness: in the concrete run `wenv6` the skip-check read fails
with a permission error; the run logs it, downloads anyway, and ends as
if the file had been absent. -/
theorem skip_read_failure_recovers_witness :
    (run_main wenv6 wargs).1 =
      (run_main { wenv6 with fileExists := false } wargs).1 ∧
    Event.logSkipReadError ∈ (run_main wenv6 wargs).2 ∧
    Event.download ∈ (run_main wenv6 wargs).2 :=
  skip_read_failure_recovers wenv6 wargs "out.jar"
    (ProjectData.mk "paper" [] ["1.20"]) "1.20" (VersionData.mk [10, 12, 11])
    12
    (BuildData.mk [("application", Download.mk "paper-1.20-12.jar"
      "e3b0c44298fc1c149afbf4c8996fb92427ae41e4649b934ca495991b7852b855")])
    (Download.mk "paper-1.20-12.jar"
      "e3b0c44298fc1c149afbf4c8996fb92427ae41e4649b934ca495991b7852b855")
    (sha256 []) "permission denied"
    rfl rfl (by decide) rfl rfl rfl (by decide) (by decide) rfl rfl

/-- C7: when the destination is standard output and the process is
attached to an interactive terminal, the run refuses with the terminal
guard and performs no effect at all — in particular no network fetch
precedes the guard. -/
theorem terminal_guard_before_network (env : Env) (args : PaperLatest)
    (hloc : args.download_location = DownloadLocation.stdout)
    (hatt : env.user_attended = true) :
    run_main env args = (Outcome.refusedTerminal, []) := by
  simp [run_main, hloc, hatt, is_stdout]

/-- C7 witness: a concrete attended run with a standard-output
destination refuses with an empty effect trace. -/
theorem terminal_guard_before_network_witness :
    run_main { wenv with user_attended := true }
      (PaperLatest.mk "paper" "application" "1.20" DownloadLocation.stdout) =
      (Outcome.refusedTerminal, []) :=
  terminal_guard_before_network { wenv with user_attended := true }
    (PaperLatest.mk "paper" "application" "1.20" DownloadLocation.stdout)
    rfl rfl

/-- C8 counterexample: the descriptor digest string "abcd" is valid hex
but decodes to 2 bytes, not a 32-byte digest; the decode step does not
fail on it — the concrete run proceeds through the skip-check and the
download, and only the digest comparison after the download fails — so
"any string that does not decode to a 32-byte digest is a fatal error at
the decode step" is false on the code. -/
theorem sha256_hex_length_not_checked_cex :
    hexDecode "abcd" = some [171, 205] ∧
    run_main
      (Env.mk false (Except.ok (ProjectData.mk "paper" [] ["1.20"]))
        (Except.error ()) (Except.ok (VersionData.mk [12]))
        (Except.ok (BuildData.mk
          [("application", Download.mk "paper-1.20-12.jar" "abcd")]))
        false (Except.error "unused") (Except.ok [])
        (Except.ok ()) (Except.ok ()))
      (PaperLatest.mk "paper" "application" "1.20"
        (DownloadLocation.file "out.jar")) =
      (Outcome.panic "Failed digest check",
        [Event.fetchProject, Event.fetchVersion, Event.fetchBuild,
          Event.download]) ∧
    Outcome.panic "Failed digest check" ≠
      Outcome.panic "Got a sha256 value that was not hex" := by
  refine ⟨by decide, by decide, by decide⟩

/-- C8 (amended): a descriptor digest string that is not valid
hexadecimal (odd length or a non-hex character) is a fatal error at the
decode step, before the skip-check file read and before any download or
write; the decode does not check for a 32-byte length, so a valid hex
string of any length (such as "abcd") passes the decode step. -/
theorem invalid_hex_fatal_before_io (env : Env) (args : PaperLatest)
    (pd : ProjectData) (ver : String) (vd : VersionData) (b : Int)
    (bd : BuildData) (download : Download)
    (hguard : (is_stdout args.download_location && env.user_attended) = false)
    (hproj : env.projectFetch = Except.ok pd)
    (hresolve : determine_version env.groupFetch pd args.version =
      ResolveResult.resolved ver)
    (hver : env.versionFetch = Except.ok vd)
    (hbuild : select_build vd.builds = Except.ok b)
    (hbd : env.buildFetch = Except.ok bd)
    (hdl : lookup_download bd.downloads args.download_type = some download)
    (hhex : hexDecode download.sha256 = none) :
    (run_main env args).1 = Outcome.panic "Got a sha256 value that was not hex" ∧
    Event.readFile ∉ (run_main env args).2 ∧
    Event.download ∉ (run_main env args).2 ∧
    Event.openWriter ∉ (run_main env args).2 ∧
    hexDecode "abcd" = some [171, 205] := by
  have hrun : run_main env args =
      (Outcome.panic "Got a sha256 value that was not hex",
        Event.fetchProject :: group_fetch_events pd args.version ++
          [Event.fetchVersion, Event.fetchBuild]) := by
    simp only [run_main, hguard, hproj, hresolve, hver, hbuild, hbd, hdl, hhex,
      Bool.false_eq_true, if_false, List.cons_append, List.nil_append,
      List.append_assoc]
  rw [hrun]
  refine ⟨rfl, fun hmem => ?_, fun hmem => ?_, fun hmem => ?_, by decide⟩ <;>
    · simp only [group_fetch_events] at hmem
      split at hmem <;> simp_all

/-- C8 witness: in the concrete run `wenv8` the descriptor digest string
is "zz"; the run panics at the decode step having touched neither the
destination file nor the network download. -/
theorem invalid_hex_fatal_before_io_witness :
    (run_main wenv8 wargs).1 =
      Outcome.panic "Got a sha256 value that was not hex" ∧
    Event.readFile ∉ (run_main wenv8 wargs).2 ∧
    Event.download ∉ (run_main wenv8 wargs).2 ∧
    Event.openWriter ∉ (run_main wenv8 wargs).2 ∧
    hexDecode "abcd" = some [171, 205] :=
  invalid_hex_fatal_before_io wenv8 wargs
    (ProjectData.mk "paper" [] ["1.20"]) "1.20" (VersionData.mk [10, 12, 11])
    12
    (BuildData.mk [("application", Download.mk "paper-1.20-12.jar" "zz")])
    (Download.mk "paper-1.20-12.jar" "zz")
    rfl rfl (by decide) rfl rfl rfl (by decide) (by decide)

/-- C9: the digest is a deterministic function of the input bytes; the
digest of the empty input is the standard SHA-256 empty-string vector;
and both hash checks compare raw digest byte lists for equality, not
textual hex encodings. -/
theorem digest_deterministic_raw_compare :
    (∀ b1 b2 : List Nat, b1 = b2 → sha256 b1 = sha256 b2) ∧
    hexDecode "e3b0c44298fc1c149afbf4c8996fb92427ae41e4649b934ca495991b7852b855"
      = some (sha256 []) ∧
    (∀ dh bytes : List Nat, check_mem_hash dh bytes = true ↔ dh = sha256 bytes) ∧
    (∀ dh bytes : List Nat,
      check_file_hash dh (Except.ok bytes) = Except.ok true ↔
        dh = sha256 bytes) := by
  refine ⟨fun b1 b2 h => by rw [h], by decide, fun dh bytes => ?_,
    fun dh bytes => ?_⟩
  · simp [check_mem_hash]
  · simp [check_file_hash]

/-- C9 witness: determinism applied to the concrete one-byte input 42. -/
theorem digest_deterministic_raw_compare_witness :
    ([42] : List Nat) = [42] ∧ sha256 [42] = sha256 [42] :=
  ⟨rfl, digest_deterministic_raw_compare.1 [42] [42] rfl⟩

/-- C10: parsing the download-location argument is total: exactly the
string "-" yields the standard-output destination, every other string
yields the file destination at that path, and consequently a file
destination can never carry the path "-". -/
theorem download_location_parse_total :
    DownloadLocation.from_str "-" = DownloadLocation.stdout ∧
    (∀ s : String, s ≠ "-" →
      DownloadLocation.from_str s = DownloadLocation.file s) ∧
    (∀ s p : String,
      DownloadLocation.from_str s = DownloadLocation.file p → p ≠ "-") := by
  refine ⟨rfl, ?_, ?_⟩
  · intro s hs
    unfold DownloadLocation.from_str
    split
    · exact absurd rfl hs
    · rfl
  · intro s p h hp
    subst hp
    unfold DownloadLocation.from_str at h
    split at h
    · exact DownloadLocation.noConfusion h
    · cases h
      simp_all

/-- C10 witness: the parse applied to the concrete path "out.jar". -/
theorem download_location_parse_total_witness :
    "out.jar" ≠ "-" ∧
    DownloadLocation.from_str "out.jar" = DownloadLocation.file "out.jar" :=
  ⟨by decide, download_location_parse_total.2.1 "out.jar" (by decide)⟩
